import Mathlib

/-!
Verification of the data-access layer in `lib/base.js` and `lib/error.js`
(node-mysql-promised): a shallow embedding of the condition/option compiler,
the primary-key resolver, the validation-gate constraint merge, the
callback bridge, and the CRUD facade statement builders, together with
theorems checking the natural-language specification against the code.

JavaScript values are modelled by the inductive `JsVal` (numbers as `Int`;
the claims under study never exercise fractional arithmetic).  Thrown
errors are modelled by `JsErr`: `DbError(message, description)` from
`lib/error.js`, plain `new Error(msg)`, and the `ReferenceError` raised by
reading an undeclared variable.  Fallible code returns `Except JsErr`.
-/

/-- Model of a JavaScript value as manipulated by `lib/base.js`.
Objects are ordered association lists (JS objects preserve insertion
order and have unique keys, which the code relies on). -/
inductive JsVal where
  | undefined : JsVal
  | null : JsVal
  | bool : Bool → JsVal
  | num : Int → JsVal
  | str : String → JsVal
  | arr : List JsVal → JsVal
  | obj : List (String × JsVal) → JsVal

/-- Model of a thrown JavaScript error.
`dbError code desc` is `DbError(code, desc)` from `lib/error.js`
(its first constructor argument is named `message` there and holds a
short error code such as `invalid_call` or `invalid_param`);
`jsError msg` is a plain `new Error(msg)`;
`refError name` is the `ReferenceError` raised when the undeclared
variable `name` is read. -/
inductive JsErr where
  | dbError : String → String → JsErr
  | jsError : String → JsErr
  | refError : String → JsErr
deriving DecidableEq, Repr

/-- The handle's primary-key specification (`options.pk`): a single field
name or an ordered list of field names for composite keys. -/
inductive PkSpec where
  | single : String → PkSpec
  | multi : List String → PkSpec
deriving DecidableEq, Repr

/-- JavaScript truthiness: `undefined`, `null`, `false`, `0` and `""` are
falsy; every object and array is truthy. -/
def falsy : JsVal → Bool
  | .undefined => true
  | .null => true
  | .bool b => !b
  | .num n => n == 0
  | .str s => s == ""
  | .arr _ => false
  | .obj _ => false

/-- Is the value `undefined`?  Models underscore's `_.isUndefined`. -/
def jsIsUndefined : JsVal → Bool
  | .undefined => true
  | _ => false

/-- Models underscore's `_.isObject`, which is true for plain objects AND
for arrays (anything of `typeof` "object" or "function"). -/
def jsIsObject : JsVal → Bool
  | .obj _ => true
  | .arr _ => true
  | _ => false

/-- Models underscore's `_.isArray`. -/
def jsIsArray : JsVal → Bool
  | .arr _ => true
  | _ => false

/-- Models underscore's `_.isNumber`. -/
def jsIsNumber : JsVal → Bool
  | .num _ => true
  | _ => false

/-- Models underscore's `_.isString`. -/
def jsIsString : JsVal → Bool
  | .str _ => true
  | _ => false

/-- Digit accumulator for the canonical-numeric-string test on array
property reads. -/
def strToNatAux : List Char → Nat → Option Nat
  | [], acc => some acc
  | c :: cs, acc => if c.isDigit then strToNatAux cs (acc * 10 + (c.toNat - 48)) else none

/-- Parse a string of decimal digits, as JavaScript array indexing does
with a canonical numeric string key; any other key reads `undefined`. -/
def strToNat? (s : String) : Option Nat :=
  if s.data.isEmpty then none else strToNatAux s.data 0

/-- First-match lookup in an object's field list. -/
def lookupField : List (String × JsVal) → String → Option JsVal
  | [], _ => none
  | (k', v) :: rest, k => if k' = k then some v else lookupField rest k

/-- JavaScript property assignment `o[k] = v` on an object's field list:
an existing key keeps its position and gets the new value, a new key is
appended. -/
def setField : List (String × JsVal) → String → JsVal → List (String × JsVal)
  | [], k, v => [(k, v)]
  | (k', v') :: rest, k, v =>
      if k' = k then (k, v) :: rest else (k', v') :: setField rest k v

/-- JavaScript property read `o[k]` with a string key: field lookup on
objects, numeric-string indexing on arrays, `undefined` otherwise
(reads on primitives of interest here all yield `undefined`). -/
def jsGet (v : JsVal) (k : String) : JsVal :=
  match v with
  | .obj fs =>
      match lookupField fs k with
      | some x => x
      | none => .undefined
  | .arr xs =>
      match strToNat? k with
      | some i => xs.getD i .undefined
      | none => .undefined
  | _ => .undefined

/-- JavaScript indexed read `o[i]` with a number key. -/
def jsIndex (v : JsVal) (i : Nat) : JsVal :=
  match v with
  | .arr xs => xs.getD i .undefined
  | .str s => if i < s.data.length then .str (String.singleton (s.data.getD i ' ')) else .undefined
  | _ => .undefined

/-- JavaScript property write `o[k] = v`: updates objects; writes on
primitives are silently dropped (non-strict mode). -/
def jsSet (v : JsVal) (k : String) (x : JsVal) : JsVal :=
  match v with
  | .obj fs => .obj (setField fs k x)
  | other => other

mutual

/-- JavaScript `String(v)` coercion as used by `+` concatenation,
`Array.prototype.join` and the regular-expression test in the compiler. -/
def jsToString : JsVal → String
  | .undefined => "undefined"
  | .null => "null"
  | .bool b => if b then "true" else "false"
  | .num n => toString n
  | .str s => s
  | .arr xs => jsToStringList xs
  | .obj _ => "[object Object]"

/-- `Array.prototype.toString`, i.e. `join(",")` of the coerced elements. -/
def jsToStringList : List JsVal → String
  | [] => ""
  | [x] => jsToString x
  | x :: y :: rest => jsToString x ++ "," ++ jsToStringList (y :: rest)

end

/-- One character of `sqlstring`'s string-value escaping
(the `mysql.escape` collaborator). -/
def escapeChar (c : Char) : String :=
  if c = Char.ofNat 0 then "\\0"
  else if c = Char.ofNat 8 then "\\b"
  else if c = Char.ofNat 9 then "\\t"
  else if c = Char.ofNat 10 then "\\n"
  else if c = Char.ofNat 13 then "\\r"
  else if c = Char.ofNat 26 then "\\Z"
  else if c = Char.ofNat 34 then "\\\""
  else if c = Char.ofNat 39 then "\\\x27"
  else if c = Char.ofNat 92 then "\\\\"
  else String.singleton c

/-- Body of a single-quoted escaped SQL string literal. -/
def escapeStrBody (s : String) : String :=
  s.data.foldl (fun acc c => acc ++ escapeChar c) ""

/-- One character of identifier quoting: a backtick is doubled, a dot
closes and reopens the quoted part. -/
def escapeIdChar (c : Char) : String :=
  if c = Char.ofNat 96 then "\x60\x60"
  else if c = '.' then "\x60.\x60"
  else String.singleton c

/-- The `mysql.escapeId` collaborator (`sqlstring.escapeId`) on the
already-coerced string: backtick-quote, doubling inner backticks and
splitting on dots (both replacements are per character, matching the
global single-character regular expressions of `sqlstring`). -/
def escapeIdStr (s : String) : String :=
  "\x60" ++ s.data.foldl (fun acc c => acc ++ escapeIdChar c) "" ++ "\x60"

/-- `mysql.escapeId(v)` on an arbitrary value: coerce to string, then quote. -/
def escapeIdJs (v : JsVal) : String :=
  escapeIdStr (jsToString v)

mutual

/-- The `mysql.escape` collaborator (`sqlstring.escape`): `NULL` for
null/undefined, literals for booleans and numbers, quoted escaped strings,
comma-joined element lists for arrays, and `identifier = value` pairs for
objects. -/
def escapeVal : JsVal → String
  | .undefined => "NULL"
  | .null => "NULL"
  | .bool b => if b then "true" else "false"
  | .num n => toString n
  | .str s => "\x27" ++ escapeStrBody s ++ "\x27"
  | .arr xs => escapeValList xs
  | .obj fs => escapeValFields fs

/-- Array escaping: elements escaped and joined by `", "`. -/
def escapeValList : List JsVal → String
  | [] => ""
  | [x] => escapeVal x
  | x :: y :: rest => escapeVal x ++ ", " ++ escapeValList (y :: rest)

/-- Object escaping (`sqlstring.objectToValues`): `key = value` pairs. -/
def escapeValFields : List (String × JsVal) → String
  | [] => ""
  | [(k, v)] => escapeIdStr k ++ " = " ++ escapeVal v
  | (k, v) :: p :: rest => escapeIdStr k ++ " = " ++ escapeVal v ++ ", " ++ escapeValFields (p :: rest)

end

/-- The `mysql.format` collaborator on a template's character list:
`??` consumes a value as an escaped identifier, `?` as an escaped value,
other characters are copied. -/
def mysqlFormatAux : List Char → List JsVal → String
  | [], _ => ""
  | '?' :: '?' :: rest, v :: vs => escapeIdJs v ++ mysqlFormatAux rest vs
  | '?' :: rest, v :: vs => escapeVal v ++ mysqlFormatAux rest vs
  | c :: rest, vs => String.singleton c ++ mysqlFormatAux rest vs

/-- `mysql.format(sql, values)`. -/
def mysqlFormat (sql : String) (vs : List JsVal) : String :=
  mysqlFormatAux sql.data vs

/-- One character class of the primary-key-shaped test: the regular
expression `^[^\s=<>"]+$` forbids whitespace and the characters
`=`, `<`, `>`, `"`. -/
def pkShapedChar (c : Char) : Bool :=
  !(c = ' ' || c = Char.ofNat 9 || c = Char.ofNat 10 || c = Char.ofNat 13 ||
    c = Char.ofNat 11 || c = Char.ofNat 12 ||
    c = '=' || c = '<' || c = '>' || c = Char.ofNat 34)

/-- The test `/^[^\s=<>"]+$/.test(s)`: non-empty and every character
allowed. -/
def pkShaped (s : String) : Bool :=
  !s.data.isEmpty && s.data.all pkShapedChar

/-- The object key produced by `conditions[this.pk] = pk`: a string key
is used verbatim; an array key is coerced by JavaScript to its
comma-joined string form. -/
def pkKey : PkSpec → String
  | .single s => s
  | .multi l => String.intercalate "," l

/-- JavaScript `v.toUpperCase()`: succeeds on strings, raises a
`TypeError` on any other value. -/
def jsToUpper : JsVal → Except JsErr String
  | .str s => .ok (String.mk (s.data.map Char.toUpper))
  | _ => .error (.jsError "toUpperCase is not a function")

/-- The test `/[%?]/.test(value)`: the coerced string contains `%` or `?`. -/
def hasWild (v : JsVal) : Bool :=
  (jsToString v).data.any (fun c => c = '%' || c = '?')

/-- Body of `compileConditions`' per-item loop (`lib/base.js` lines
187-211, minus the accumulation): from one item it computes the
conjunction to place before the clause (used only for the second and
later items) and the clause `(escapedKey operator escapedValue)`.
An operator-tuple value of length 3 supplies the conjunction, length at
least 2 supplies operator and value; a shorter tuple throws
`DbError('invalid_param', 'not enough params for condition')`.  An
operator `LIKE` whose value has neither `%` nor `?` wraps the value as
`%value%`. -/
def compileItem (item : JsVal) : Except JsErr (String × String) := do
  let key := jsIndex item 0
  let value := jsIndex item 1
  let (operator, value, conj) ←
    match value with
    | .arr vs => do
        let conj ←
          if vs.length = 3 then jsToUpper (jsIndex (.arr vs) 2)
          else pure "AND"
        if vs.length ≥ 2 then do
          let op ← jsToUpper (jsIndex (.arr vs) 0)
          pure (op, jsIndex (.arr vs) 1, conj)
        else
          Except.error (.dbError "invalid_param" "not enough params for condition")
    | _ => pure ("=", value, "AND")
  let value :=
    if operator = "LIKE" && !hasWild value then
      JsVal.str ("%" ++ jsToString value ++ "%")
    else value
  pure (conj, "(" ++ escapeIdJs key ++ " " ++ operator ++ " " ++ escapeVal value ++ ")")

/-- The `_.each` accumulation of `compileConditions`: clauses after the
first are preceded by a space-padded conjunction (`i` is the loop
counter). -/
def compileLoop : List JsVal → Nat → String → Except JsErr String
  | [], _, str => .ok str
  | item :: rest, i, str => do
      let (conj, clause) ← compileItem item
      compileLoop rest (i + 1) (str ++ (if i > 0 then " " ++ conj ++ " " else "") ++ clause)

/-- The object/array part of `compileConditions` (`lib/base.js` lines
175-213): an empty mapping returns `""` at once; a non-empty mapping is
converted to a list of `[key, value]` pair arrays; a list is iterated as
given; any other value iterates nothing.  The joined clauses are
prefixed by `" WHERE "` when non-empty. -/
def compileObj (conditions : JsVal) : Except JsErr String :=
  match conditions with
  | .obj fields =>
      if fields.isEmpty then pure ""
      else do
        let str ← compileLoop (fields.map fun kv => JsVal.arr [JsVal.str kv.1, kv.2]) 0 ""
        pure (if str = "" then "" else " WHERE " ++ str)
  | .arr items => do
      let str ← compileLoop items 0 ""
      pure (if str = "" then "" else " WHERE " ++ str)
  | _ => pure ""

/-- `BaseModel.prototype.compileConditions` (`lib/base.js` lines
166-213).  A number or a primary-key-shaped string is rewritten to an
equality mapping on the primary key.  Any other string falls into the
branch `_.isString(conditions) && condition.length > 0`, which reads the
undeclared variable `condition` — a slip for `conditions` — so the code
raises a `ReferenceError` there instead of returning the raw
`" WHERE " + conditions` escape hatch. -/
def compileConditions (pk : PkSpec) (conditions : JsVal) : Except JsErr String :=
  if jsIsNumber conditions ||
     (jsIsString conditions && pkShaped (jsToString conditions)) then
    compileObj (.obj [(pkKey pk, conditions)])
  else if jsIsString conditions then
    .error (.refError "condition")
  else
    compileObj conditions

/-- `BaseModel.prototype.compileOptions` (`lib/base.js` lines 222-246):
a raw string is returned verbatim; an object contributes
`" ORDER BY " + orderBy` when `orderBy` is truthy and
`" LIMIT " + limit.join(", ")` when `limit` is truthy, where the limit
list is `options.limit` itself when it is an array and otherwise the
truthy ones of `options.start`, `options.limit` in that order.
Underscore's `_.isObject` also sends arrays into the object branch,
where both property reads yield `undefined`. -/
def compileOptions (options : JsVal) : String :=
  match options with
  | .str s => s
  | .obj _ =>
      let str := ""
      let str :=
        if falsy (jsGet options "orderBy") then str
        else str ++ " ORDER BY " ++ jsToString (jsGet options "orderBy")
      if falsy (jsGet options "limit") then str
      else
        let limit : List JsVal :=
          match jsGet options "limit" with
          | .arr xs => xs
          | _ =>
              (if falsy (jsGet options "start") then [] else [jsGet options "start"]) ++
              (if falsy (jsGet options "limit") then [] else [jsGet options "limit"])
        str ++ " LIMIT " ++ String.intercalate ", " (limit.map jsToString)
  | .arr _ => ""
  | _ => ""

/-- The composite-key loop of `buildPkCondition`: for each listed field,
a falsy `data[key]` throws
`DbError('invalid_call', 'missing "key" for composite primary key')`,
otherwise the pair is appended in order. -/
def buildPkMulti (data : JsVal) : List String → Except JsErr (List (String × JsVal))
  | [] => .ok []
  | key :: rest =>
      if falsy (jsGet data key) then
        .error (.dbError "invalid_call" ("missing \"" ++ key ++ "\" for composite primary key"))
      else do
        let tail ← buildPkMulti data rest
        .ok ((key, jsGet data key) :: tail)

/-- `BaseModel.prototype.buildPkCondition` (`lib/base.js` lines 128-159).
Composite key: `_.isObject(data)` is true for plain objects AND arrays,
so both take the field-name loop; the intended positional branch is
guarded by `_.isArray()` called with no argument (always false) and is
dead code; any other value throws
`DbError('invalid_call', 'invalid input for composite primary key')`.
Scalar key: an object (or array) missing the field throws a plain
`new Error('missing primary key')`; otherwise `{pk: data[pk]}`; a
non-object is wrapped as `{pk: data}`. -/
def buildPkCondition (pk : PkSpec) (data : JsVal) : Except JsErr JsVal :=
  match pk with
  | .multi keys =>
      if jsIsObject data then do
        let fs ← buildPkMulti data keys
        .ok (.obj fs)
      else if jsIsArray data && false then
        .ok (.obj [])
      else
        .error (.dbError "invalid_call" "invalid input for composite primary key")
  | .single p =>
      if jsIsObject data then
        if jsIsUndefined (jsGet data p) then
          .error (.jsError "missing primary key")
        else
          .ok (.obj [(p, jsGet data p)])
      else
        .ok (.obj [(p, data)])

/-- `BaseModel.prototype.search` up to the driver boundary
(`lib/base.js` lines 248-256): the SQL string handed to `this.query`,
or the error thrown before any statement reaches the driver. -/
def searchModel (table : String) (pk : PkSpec) (conditions options : JsVal) :
    Except JsErr String := do
  let sql := mysqlFormat "SELECT * FROM ??" [.str table]
  let sql := sql ++ (← compileConditions pk conditions)
  pure (sql ++ compileOptions options)

/-- `BaseModel.prototype.remove` / `delete` up to the driver boundary
(`lib/base.js` lines 304-309): the SQL string handed to `this.query`. -/
def removeModel (table : String) (pk : PkSpec) (conditions : JsVal) :
    Except JsErr String := do
  let sql := mysqlFormat "DELETE FROM ??" [.str table]
  pure (sql ++ (← compileConditions pk conditions))

/-- The options handling of `BaseModel.prototype.find` (`lib/base.js`
lines 258-260): `options = options || {}; options.limit = 1;`.
JavaScript objects are passed by reference, so for an object argument
the returned value IS the caller's object after the call: the
assignment mutates it in place and the mutation persists. -/
def findSetOptions (options : JsVal) : JsVal :=
  let options := if falsy options then JsVal.obj [] else options
  jsSet options "limit" (.num 1)

/-- Underscore's `_.each` / `_.allKeys` view of a value as key/value
pairs: an object's own fields; an array's elements under their index
keys; nothing for primitives. -/
def suppliedPairs : JsVal → List (String × JsVal)
  | .obj fs => fs
  | .arr xs => (xs.enum).map (fun p => (toString p.1, p.2))
  | _ => []

/-- `_.extend(target, source)`: each key of `source` is assigned onto
`target` in order (in-place in JavaScript). -/
def extendFields (target source : List (String × JsVal)) : List (String × JsVal) :=
  source.foldl (fun acc kv => setField acc kv.1 kv.2) target

/-- `_.extend(target, source)` at the value level: a target object is
mutated by copying the source's keys; `_.extend` returns any other
target unchanged (`undefined` and primitives cannot be extended). -/
def extendInner (target source : JsVal) : JsVal :=
  match target with
  | .obj fs => .obj (extendFields fs (suppliedPairs source))
  | other => other

/-- Result of the constraint-resolution part of
`BaseModel.prototype.validate`: the constraints object passed on to the
validation collaborator, and the handle's `this.constraints` as observable
after the call. -/
structure ValidateState where
  merged : List (String × JsVal)
  handleAfter : List (String × JsVal)

/-- Constraint resolution of `BaseModel.prototype.validate`
(`lib/base.js` lines 311-322).  `constraints === true` selects the
handle's constraints verbatim.  Otherwise the code takes
`_.clone(this.constraints)` — a SHALLOW clone, so each per-field
constraint object is shared with the handle — and runs
`_.extend(constraints[key], value)` for each supplied field: for a field
whose handle entry is an object this mutates the shared inner object
(visible through the handle afterwards); `_.extend` on `undefined` or a
primitive is a no-op, so supplied fields absent from the handle's
mapping are dropped.  The merged mapping and the handle's post-state
therefore coincide. -/
def validateMerge (handleConstraints : List (String × JsVal)) (constraints : JsVal) :
    ValidateState :=
  match constraints with
  | .bool true => ⟨handleConstraints, handleConstraints⟩
  | _ =>
      let after := (suppliedPairs constraints).foldl
        (fun h kv =>
          match lookupField h kv.1 with
          | some (.obj _) =>
              setField h kv.1
                (extendInner (match lookupField h kv.1 with
                              | some inner => inner
                              | none => .undefined) kv.2)
          | _ => h)
        handleConstraints
      ⟨after, after⟩

/-- First argument of a node-style callback invocation: `null` on the
success path, the thrown error on the failure path. -/
inductive CbFirst where
  | nil : CbFirst
  | err : JsErr → CbFirst
deriving DecidableEq, Repr

/-- The callback layer of `BaseModel.prototype.bindCallback`
(`lib/base.js` lines 101-126) for one wrapped operation, given the
settlement of the wrapped promise.  When the last argument is callable
it is popped and, once the promise settles, invoked: `cb(null, data)`
on fulfilment, but `cb(error)` — one argument, so the second parameter
is `undefined`, not `null` — on rejection.  The wrapper returns the
original promise, which settles to the same outcome.  The first
component lists every callback invocation as (first argument, second
argument). -/
def bindCallbackRun (outcome : Except JsErr JsVal) (hasCb : Bool) :
    List (CbFirst × JsVal) × Except JsErr JsVal :=
  if hasCb then
    match outcome with
    | .ok v => ([(.nil, v)], outcome)
    | .error e => ([(.err e, .undefined)], outcome)
  else ([], outcome)

/-- JavaScript `s.split(',')` on a character list, with the current
segment accumulated in reverse. -/
def splitCommaAux : List Char → List Char → List String
  | [], cur => [String.mk cur.reverse]
  | c :: rest, cur =>
      if c = ',' then String.mk cur.reverse :: splitCommaAux rest []
      else splitCommaAux rest (c :: cur)

/-- JavaScript `s.split(',')`. -/
def jsSplitComma (s : String) : List String :=
  splitCommaAux s.data []

/-- The operations wrapped by the callback layer at construction
(`lib/base.js` lines 34-35): the comma-separated method string split
into names. -/
def callbackMethods : List String :=
  jsSplitComma "search,find,findByPk,insert,update,replace,delete"

/-- The downstream statement a `replace` call delegates to. -/
inductive DbAction where
  | updateAct : JsVal → JsVal → DbAction
  | insertAct : JsVal → DbAction

/-- `BaseModel.prototype.replace` (`lib/base.js` lines 355-368),
parameterized by the driver's answer to the inner `find` on the resolved
condition (`findRow cond` is the settled value of `self.find(cond)`:
the matched row, or `null` when no row matched).  The
`_.isUndefined(condition)` guard is kept from the source even though
`buildPkCondition` never returns `undefined` (it throws instead).  A
truthy row routes to `update(condition, data, constraints)`, a falsy
one to `insert(data, constraints)`. -/
def replaceModel (pk : PkSpec) (data : JsVal) (findRow : JsVal → JsVal) :
    Except JsErr DbAction := do
  let condition ← buildPkCondition pk data
  if jsIsUndefined condition then
    .error (.dbError "invalid_param" "missing primary key")
  else if falsy (findRow condition) then
    .ok (.insertAct data)
  else
    .ok (.updateAct condition data)

/-! Helper lemmas. -/

theorem exceptBindOk {α β : Type} (a : α) (f : α → Except JsErr β) :
    (Except.ok a >>= f) = f a := rfl

theorem exceptBindErr {α β : Type} (e : JsErr) (f : α → Except JsErr β) :
    (Except.error e >>= f : Except JsErr β) = Except.error e := rfl

theorem lookupField_setField_self (fs : List (String × JsVal)) (k : String) (v : JsVal) :
    lookupField (setField fs k v) k = some v := by
  induction fs with
  | nil => simp [setField, lookupField]
  | cons p rest ih =>
      obtain ⟨k', v'⟩ := p
      by_cases hp : k' = k
      · simp [setField, hp, lookupField]
      · simp [setField, hp, lookupField, ih]

theorem lookupField_setField_ne (fs : List (String × JsVal)) (k k' : String) (v : JsVal)
    (h : k' ≠ k) :
    lookupField (setField fs k v) k' = lookupField fs k' := by
  induction fs with
  | nil => simp [setField, lookupField, Ne.symm h]
  | cons p rest ih =>
      obtain ⟨k0, v0⟩ := p
      by_cases hp : k0 = k
      · subst hp
        simp [setField, lookupField, Ne.symm h]
      · simp [setField, hp, lookupField, ih]

theorem compileItem_short (k : String) (vs : List JsVal) (h : vs.length < 2) :
    compileItem (.arr [.str k, .arr vs]) =
      .error (.dbError "invalid_param" "not enough params for condition") := by
  match vs, h with
  | [], _ => rfl
  | [a], _ => rfl

theorem buildPk_ok_not_undefined (pk : PkSpec) (data cond : JsVal)
    (h : buildPkCondition pk data = .ok cond) : jsIsUndefined cond = false := by
  cases pk with
  | multi keys =>
      unfold buildPkCondition at h
      by_cases ho : jsIsObject data
      · simp only [ho, if_true] at h
        cases hm : buildPkMulti data keys with
        | ok fs => rw [hm, exceptBindOk] at h; cases h; rfl
        | error e => rw [hm, exceptBindErr] at h; cases h
      · simp only [ho, Bool.false_eq_true, if_false, Bool.and_false] at h
        simp at h
  | single p =>
      unfold buildPkCondition at h
      by_cases ho : jsIsObject data
      · simp only [ho, if_true] at h
        by_cases hu : jsIsUndefined (jsGet data p)
        · simp [hu] at h
        · simp only [hu, Bool.false_eq_true, if_false] at h
          cases h; rfl
      · simp only [ho, Bool.false_eq_true, if_false] at h
        cases h; rfl

/-! Claim theorems. -/

/-- C1: the claim states that the handle's constraint mapping is never
mutated and that `validate(data, constraints)` merges the supplied
constraints without modifying the handle's own mapping.  The code
contradicts this: `_.clone(this.constraints)` is a shallow clone, so
`_.extend(constraints[key], value)` mutates the per-field constraint
object shared with the handle.  At the concrete input below (handle
constraints `{name: {presence: true}}`, supplied `{name: {length: 4}}`)
the handle's constraints observable after the call have gained
`length: 4`, while the `constraints === true` path leaves them
untouched. -/
theorem validate_merge_mutates_handle_constraints :
    (validateMerge [("name", .obj [("presence", .bool true)])]
        (.obj [("name", .obj [("length", .num 4)])])).handleAfter =
      [("name", JsVal.obj [("presence", JsVal.bool true), ("length", JsVal.num 4)])] ∧
    [("name", JsVal.obj [("presence", JsVal.bool true), ("length", JsVal.num 4)])] ≠
      [("name", JsVal.obj [("presence", JsVal.bool true)])] ∧
    (validateMerge [("name", .obj [("presence", .bool true)])] (.bool true)).handleAfter =
      [("name", JsVal.obj [("presence", JsVal.bool true)])] :=
  ⟨rfl, by simp, rfl⟩

/-- C2: the claim states that a non-empty, non-primary-key-shaped string
condition compiles to `" WHERE "` plus the string unchanged.  The code
instead reads the undeclared variable `condition` (a slip for
`conditions`) in exactly that branch and raises a `ReferenceError`:
evaluated on `"a = 1"` and on `"name like x"` the compiler fails rather
than returning the raw fragment. -/
theorem compile_raw_string_reference_error :
    compileConditions (.single "id") (.str "a = 1") = .error (.refError "condition") ∧
    compileConditions (.single "id") (.str "name like x") = .error (.refError "condition") :=
  ⟨rfl, rfl⟩

/-- C3: for a composite primary key the mapping-record and
invalid-shape parts of the claim hold (first two conjuncts: a mapping
missing a listed field fails with `InvalidCall` naming that field, a
scalar record fails with `InvalidCall` "invalid input for composite
primary key").  The positional-sequence part fails on the code: the
intended `_.isArray` branch is dead (`_.isArray()` is called without an
argument, and `_.isObject` is already true for arrays), so the record
`["a", "b"]` is sent through the field-name loop and fails with
missing "tenant" instead of being mapped by index (third conjunct). -/
theorem buildPkCondition_composite_paths :
    buildPkCondition (.multi ["tenant", "id"]) (.obj [("tenant", .str "a")]) =
      .error (.dbError "invalid_call" "missing \"id\" for composite primary key") ∧
    buildPkCondition (.multi ["tenant", "id"]) (.num 5) =
      .error (.dbError "invalid_call" "invalid input for composite primary key") ∧
    buildPkCondition (.multi ["tenant", "id"]) (.arr [.str "a", .str "b"]) =
      .error (.dbError "invalid_call" "missing \"tenant\" for composite primary key") :=
  ⟨rfl, rfl, rfl⟩

/-- C4 counterexample: the claim states the trailing callback is invoked
with `(error, null)` on failure.  The code's rejection handler calls
`cb(error)` with a single argument, so the callback's second parameter
is `undefined`, which is not `null`. -/
theorem bindCallback_failure_arg_not_null :
    bindCallbackRun (.error (.jsError "boom")) true =
      ([(CbFirst.err (.jsError "boom"), JsVal.undefined)], .error (.jsError "boom")) ∧
    JsVal.undefined ≠ JsVal.null :=
  ⟨rfl, by simp⟩

/-- C4 amended: for every operation wrapped by the callback layer
(`search, find, findByPk, insert, update, replace, delete`), a trailing
callable is invoked exactly once — with `(null, result)` on success and
with the error as its only argument (second parameter `undefined`, not
`null`) on failure — and the operation still returns the deferred
result, which settles exactly once to the very outcome the callback
observed. -/
theorem bindCallback_dual_observers (outcome : Except JsErr JsVal) :
    (bindCallbackRun outcome true).2 = outcome ∧
    (bindCallbackRun outcome true).1.length = 1 ∧
    (bindCallbackRun outcome true).1 =
      (match outcome with
       | .ok v => [(CbFirst.nil, v)]
       | .error e => [(CbFirst.err e, JsVal.undefined)]) ∧
    (bindCallbackRun outcome false).1 = [] ∧
    callbackMethods = ["search", "find", "findByPk", "insert", "update", "replace", "delete"] := by
  cases outcome <;> exact ⟨rfl, rfl, rfl, rfl, rfl⟩

/-- C5: an empty mapping or an omitted (undefined) condition compiles to
the empty string, so `remove`/`delete` emits exactly the formatted
`DELETE FROM <table>` with no `WHERE` clause appended (match-all, hence
deleting every row).  The last conjunct evaluates the emitted statement
in full on a concrete table name. -/
theorem remove_empty_condition_deletes_all (table : String) (pk : PkSpec) :
    compileConditions pk .undefined = .ok "" ∧
    compileConditions pk (.obj []) = .ok "" ∧
    removeModel table pk .undefined = .ok (mysqlFormat "DELETE FROM ??" [.str table]) ∧
    removeModel table pk (.obj []) = .ok (mysqlFormat "DELETE FROM ??" [.str table]) ∧
    removeModel "users" (.single "id") (.obj []) = .ok "DELETE FROM \x60users\x60" := by
  refine ⟨rfl, rfl, ?_, ?_, rfl⟩ <;>
    · show Except.ok (mysqlFormat "DELETE FROM ??" [.str table] ++ "") = _
      rw [String.append_empty]

/-- C6 counterexample: the claim states that a mapping record lacking
the scalar primary-key field fails with an `InvalidParameter` error.
The code throws a plain `new Error('missing primary key')` there
(`lib/base.js` line 151), not a `DbError` of kind `invalid_param`
(nor `invalid_call`). -/
theorem buildPk_scalar_missing_plain_error :
    buildPkCondition (.single "id") (.obj [("name", .str "x")]) =
      .error (.jsError "missing primary key") ∧
    JsErr.jsError "missing primary key" ≠ JsErr.dbError "invalid_param" "missing primary key" ∧
    JsErr.jsError "missing primary key" ≠ JsErr.dbError "invalid_call" "missing primary key" :=
  ⟨rfl, by decide, by decide⟩

/-- C6 amended: when the handle's primary key is scalar,
`buildPkCondition` on a mapping record lacking the primary-key field
fails with a plain `Error("missing primary key")` (not an
`InvalidParameter` `DbError`); on a mapping that has the field it
returns `{pk: record[pk]}`; and on a scalar (non-object) record it
returns `{pk: record}`. -/
theorem buildPk_scalar_resolution (p : String) (fs : List (String × JsVal)) (v : JsVal)
    (hv : jsIsObject v = false) :
    buildPkCondition (.single p) (.obj fs) =
      (if jsIsUndefined (jsGet (.obj fs) p) then .error (.jsError "missing primary key")
       else .ok (.obj [(p, jsGet (.obj fs) p)])) ∧
    buildPkCondition (.single p) v = .ok (.obj [(p, v)]) := by
  constructor
  · rfl
  · simp [buildPkCondition, hv]

/-- C6 witness: the amended theorem applied at the scalar record `7`
with primary key `id`. -/
theorem buildPk_scalar_resolution_witness :
    buildPkCondition (.single "id") (.num 7) = .ok (.obj [("id", .num 7)]) :=
  (buildPk_scalar_resolution "id" [] (.num 7) rfl).2

/-- C7: for every scalar condition value — a number, or a
primary-key-shaped string (non-empty, no whitespace and none of
`= < > "`) — compiling the bare value produces the same WHERE string as
compiling the explicit equality mapping `{pk: v}` on the handle's
primary-key field. -/
theorem compile_scalar_pk_equiv (p : String) (v : JsVal)
    (h : (jsIsNumber v || (jsIsString v && pkShaped (jsToString v))) = true) :
    compileConditions (.single p) v = compileConditions (.single p) (.obj [(p, v)]) := by
  cases v <;> simp_all [compileConditions, jsIsNumber, jsIsString, jsToString, pkKey]

/-- C7 witness: the equivalence applied at the number `7` and at the
primary-key-shaped string `"abc"`, with both sides evaluated. -/
theorem compile_scalar_pk_equiv_witness :
    compileConditions (.single "id") (.num 7) =
      compileConditions (.single "id") (.obj [("id", .num 7)]) ∧
    compileConditions (.single "id") (.num 7) = .ok " WHERE (\x60id\x60 = 7)" ∧
    compileConditions (.single "id") (.str "abc") =
      compileConditions (.single "id") (.obj [("id", .str "abc")]) ∧
    compileConditions (.single "id") (.str "abc") = .ok " WHERE (\x60id\x60 = \x27abc\x27)" :=
  ⟨compile_scalar_pk_equiv "id" (.num 7) rfl, rfl,
   compile_scalar_pk_equiv "id" (.str "abc") rfl, rfl⟩

/-- C8 counterexample: the claim quotes the failure message as
"not enough parameters for condition"; the code's message is
"not enough params for condition" (`lib/base.js` line 200), which
differs. -/
theorem short_tuple_error_message :
    compileConditions (.single "id") (.obj [("a", .arr [])]) =
      .error (.dbError "invalid_param" "not enough params for condition") ∧
    "not enough params for condition" ≠ "not enough parameters for condition" :=
  ⟨rfl, by decide⟩

/-- C8 amended: a condition descriptor whose first item carries an
operator-tuple with fewer than 2 elements makes `compileConditions`
fail with `DbError('invalid_param', 'not enough params for condition')`
(the code's wording), and `search` over such a descriptor fails with
that same error before any statement is produced for the driver. -/
theorem short_tuple_invalid_param (table p k : String) (vs : List JsVal)
    (rest : List (String × JsVal)) (h : vs.length < 2) :
    compileConditions (.single p) (.obj ((k, .arr vs) :: rest)) =
      .error (.dbError "invalid_param" "not enough params for condition") ∧
    searchModel table (.single p) (.obj ((k, .arr vs) :: rest)) .undefined =
      .error (.dbError "invalid_param" "not enough params for condition") := by
  have hitem := compileItem_short k vs h
  constructor
  · simp [compileConditions, jsIsNumber, jsIsString, compileObj, compileLoop, hitem,
      exceptBindErr]
  · simp [searchModel, compileConditions, jsIsNumber, jsIsString, compileObj, compileLoop,
      hitem, exceptBindErr]

/-- C8 witness: the amended theorem applied to the concrete descriptor
`{a: []}` on table `users`. -/
theorem short_tuple_invalid_param_witness :
    compileConditions (.single "id") (.obj [("a", .arr [])]) =
      .error (.dbError "invalid_param" "not enough params for condition") ∧
    searchModel "users" (.single "id") (.obj [("a", .arr [])]) .undefined =
      .error (.dbError "invalid_param" "not enough params for condition") :=
  short_tuple_invalid_param "users" "id" "a" [] [] (by decide)

/-- C9: whenever the primary-key condition resolves from the data,
`replace` performs the inner `find` on that resolved condition and
routes on its settled row: a truthy row delegates to
`update(condition, data)`, a falsy one (`null`, i.e. no matching row)
delegates to `insert(data)` with the full data. -/
theorem replace_routes_update_or_insert (pk : PkSpec) (data cond : JsVal)
    (findRow : JsVal → JsVal) (h : buildPkCondition pk data = .ok cond) :
    (falsy (findRow cond) = false →
      replaceModel pk data findRow = .ok (.updateAct cond data)) ∧
    (falsy (findRow cond) = true →
      replaceModel pk data findRow = .ok (.insertAct data)) := by
  have hu := buildPk_ok_not_undefined pk data cond h
  constructor <;> intro hrow <;>
    simp [replaceModel, h, exceptBindOk, hu, hrow]

/-- C9 witness: the routing applied at data `{id: 7, name: "x"}` with a
driver that reports a matching row (update path), and at the same data
with a driver that reports none (insert path). -/
theorem replace_routes_update_or_insert_witness :
    replaceModel (.single "id") (.obj [("id", .num 7), ("name", .str "x")])
        (fun _ => .obj [("id", .num 7)]) =
      .ok (.updateAct (.obj [("id", .num 7)]) (.obj [("id", .num 7), ("name", .str "x")])) ∧
    replaceModel (.single "id") (.obj [("id", .num 7), ("name", .str "x")])
        (fun _ => .null) =
      .ok (.insertAct (.obj [("id", .num 7), ("name", .str "x")])) :=
  ⟨(replace_routes_update_or_insert (.single "id")
      (.obj [("id", .num 7), ("name", .str "x")]) (.obj [("id", .num 7)])
      (fun _ => .obj [("id", .num 7)]) rfl).1 rfl,
   (replace_routes_update_or_insert (.single "id")
      (.obj [("id", .num 7), ("name", .str "x")]) (.obj [("id", .num 7)])
      (fun _ => .null) rfl).2 rfl⟩

/-- C10: `find(conditions, options)` with a caller-supplied options
object writes `limit = 1` into that very object before delegating to
`search`; since objects are passed by reference the caller's object is
mutated in place and the mutation persists after the call
(`findSetOptions` returns the caller's object post-call).  Every other
field is left unchanged, and any caller-set `limit` is silently
overwritten. -/
theorem find_mutates_options_limit (fs : List (String × JsVal)) :
    findSetOptions (.obj fs) = .obj (setField fs "limit" (.num 1)) ∧
    jsGet (findSetOptions (.obj fs)) "limit" = .num 1 ∧
    (∀ k, k ≠ "limit" → jsGet (findSetOptions (.obj fs)) k = jsGet (.obj fs) k) := by
  refine ⟨rfl, ?_, ?_⟩
  · simp [findSetOptions, falsy, jsSet, jsGet, lookupField_setField_self]
  · intro k hk
    simp [findSetOptions, falsy, jsSet, jsGet, lookupField_setField_ne fs "limit" k (.num 1) hk]

/-- C10 witness: the mutation applied to the options object
`{limit: 5, orderBy: "id ASC"}` — the caller's `limit` is overwritten to
1 and `orderBy` is untouched. -/
theorem find_mutates_options_limit_witness :
    findSetOptions (.obj [("limit", .num 5), ("orderBy", .str "id ASC")]) =
      .obj (setField [("limit", .num 5), ("orderBy", .str "id ASC")] "limit" (.num 1)) ∧
    jsGet (findSetOptions (.obj [("limit", .num 5), ("orderBy", .str "id ASC")])) "limit" =
      .num 1 ∧
    jsGet (findSetOptions (.obj [("limit", .num 5), ("orderBy", .str "id ASC")])) "orderBy" =
      .str "id ASC" :=
  ⟨(find_mutates_options_limit [("limit", .num 5), ("orderBy", .str "id ASC")]).1,
   (find_mutates_options_limit [("limit", .num 5), ("orderBy", .str "id ASC")]).2.1,
   (find_mutates_options_limit [("limit", .num 5), ("orderBy", .str "id ASC")]).2.2
     "orderBy" (by decide)⟩

/-- C4 witness: the dual-observer theorem applied at a concrete success
outcome. -/
theorem bindCallback_dual_observers_witness :
    (bindCallbackRun (.ok (.num 1)) true).2 = .ok (.num 1) ∧
    (bindCallbackRun (.ok (.num 1)) true).1 = [(CbFirst.nil, .num 1)] :=
  ⟨(bindCallback_dual_observers (.ok (.num 1))).1,
   (bindCallback_dual_observers (.ok (.num 1))).2.2.1⟩

/-- C5 witness: the match-all deletion applied at table `users` with a
scalar primary key. -/
theorem remove_empty_condition_deletes_all_witness :
    removeModel "users" (.single "id") (.obj []) = .ok "DELETE FROM \x60users\x60" :=
  (remove_empty_condition_deletes_all "users" (.single "id")).2.2.2.2
